import Mathlib

/-!
Shallow embedding of `autorag/synthesizer/render.py` (the single source file of
the repository), together with theorems settling the specification claims about
it.

External library objects (llama_index service contexts, storage contexts,
indices, prompt templates, query engines) are modelled as inert records that
remember exactly the arguments this repository passes to their constructors:
the repository treats them opaquely, so their identity is the tuple of
constructor arguments.  Python's `UnboundLocalError` is modelled explicitly:
a local that is assigned only under a condition becomes an `Option`, and
reading it while unbound produces an `Except.error`.
-/

namespace Render

/-- `OpenAI(model=openai_model_name, temperature=0)` from `llama_index.llms`. -/
structure OpenAI where
  model : String
  temperature : Nat
deriving DecidableEq

/-- A `ServiceContext`; the repository only ever builds one via
`ServiceContext.from_defaults(llm=llm)`. -/
structure ServiceContext where
  llm : OpenAI
deriving DecidableEq

/-- `ServiceContext.from_defaults(llm=llm)`. -/
def ServiceContext.from_defaults (llm : OpenAI) : ServiceContext := ⟨llm⟩

/-- A `StorageContext`; built via
`StorageContext.from_defaults(persist_dir=index_dir)`. -/
structure StorageContext where
  persist_dir : String
deriving DecidableEq

/-- `StorageContext.from_defaults(persist_dir=...)`. -/
def StorageContext.from_defaults (persist_dir : String) : StorageContext := ⟨persist_dir⟩

/-- The index returned by the library call `load_index_from_storage`: the
repository treats it opaquely, so it is identified with the pair of arguments
the call receives (the persisted store it was deserialised from and the
service context it was loaded under). -/
structure Index where
  storage_context : StorageContext
  service_context : ServiceContext
deriving DecidableEq

/-- `load_index_from_storage(storage_context, service_context=...)` from
`llama_index`: deserialises the persisted index; modelled as the record of its
arguments. -/
def load_index_from_storage (storage_context : StorageContext)
    (service_context : ServiceContext) : Index :=
  ⟨storage_context, service_context⟩

/-- `load_index` from `render.py`: rebuild the storage context for
`index_dir` and load the index from it. -/
def load_index (index_dir : String) (service_context : ServiceContext) : Index :=
  let storage_context := StorageContext.from_defaults index_dir
  let index := load_index_from_storage storage_context service_context
  index

/-- Node post-processors the repository can instantiate; only
`NodeExpander.build(index)` occurs. -/
inductive NodePostprocessor
  | nodeExpander (index : Index)
deriving DecidableEq

/-- `NodeExpander.build(index)` from `autorag.retriever.post_processors`. -/
def NodeExpander.build (index : Index) : NodePostprocessor :=
  NodePostprocessor.nodeExpander index

/-- `MetadataMode` from `llama_index.schema`; the repository uses `LLM`. -/
inductive MetadataMode
  | all
  | embed
  | llm
  | disabled
deriving DecidableEq

/-- `PromptTemplate(text)` from `llama_index.prompts`. -/
structure PromptTemplate where
  template : String
deriving DecidableEq

/-- The library default `CITATION_QA_TEMPLATE` imported from
`llama_index.query_engine.citation_query_engine`.  Its text lives in the
external library, not in this repository, so it is represented by a fixed
opaque-looking template value. -/
def CITATION_QA_TEMPLATE : PromptTemplate :=
  ⟨"llama_index.query_engine.citation_query_engine.CITATION_QA_TEMPLATE"⟩

/-- The `citation_cfg` block of the hydra configuration, with the fields
`init` reads from it. -/
structure CitationCfg where
  enable_cite : Bool
  similarity_top_k : Nat
  citation_chunk_size : Nat
  citation_qa_template_path : String
deriving DecidableEq

/-- The two query engines `init` can build, identified by the arguments the
repository passes to the library constructors:
`CitationQueryEngine.from_args(index, similarity_top_k=..., citation_qa_template=...,
citation_chunk_size=..., streaming=True, node_postprocessors=..., metadata_mode=...)`
and `index.as_query_engine(service_context=..., streaming=True)`. -/
inductive QueryEngine
  | citation (index : Index) (similarity_top_k : Nat)
      (citation_qa_template : PromptTemplate) (citation_chunk_size : Nat)
      (streaming : Bool) (node_postprocessors : Option (List NodePostprocessor))
      (metadata_mode : MetadataMode)
  | asQueryEngine (index : Index) (service_context : ServiceContext)
      (streaming : Bool)
deriving DecidableEq

/-- The runtime errors of the embedded fragment.  `unboundLocal name` models
Python raising `UnboundLocalError` when a function-local variable is read
before any assignment to it has executed. -/
inductive PyError
  | unboundLocal (name : String)
deriving DecidableEq

/-- `init` from `render.py`.  `readFile` models `open(path, "r").read()`.

The Python local `node_postprocessors` is assigned only inside the
`if enable_node_expander:` block, so it is modelled as
`Option (Option (List NodePostprocessor))`: the outer layer records whether
the local was ever assigned (`none` = unbound), the inner layer is the Python
value (`None` or a list of post-processors).  Reading the unbound local while
evaluating the arguments of `CitationQueryEngine.from_args` raises
`UnboundLocalError`, modelled as `Except.error`. -/
def init (readFile : String → String) (index_dir : String)
    (openai_model_name : String) (citation_cfg : CitationCfg)
    (enable_node_expander : Bool) : Except PyError QueryEngine :=
  let llm : OpenAI := ⟨openai_model_name, 0⟩
  let service_context := ServiceContext.from_defaults llm
  let index := load_index index_dir service_context
  let node_postprocessors? : Option (Option (List NodePostprocessor)) :=
    if enable_node_expander then
      some (if enable_node_expander then some [NodeExpander.build index] else none)
    else
      none
  if citation_cfg.enable_cite then
    let similarity_top_k := citation_cfg.similarity_top_k
    let citation_chunk_size := citation_cfg.citation_chunk_size
    let citation_qa_template_path := citation_cfg.citation_qa_template_path
    let citation_qa_template :=
      if citation_qa_template_path ≠ "" then
        PromptTemplate.mk (readFile citation_qa_template_path)
      else
        CITATION_QA_TEMPLATE
    match node_postprocessors? with
    | none => Except.error (PyError.unboundLocal "node_postprocessors")
    | some node_postprocessors =>
        Except.ok (QueryEngine.citation index similarity_top_k citation_qa_template
          citation_chunk_size true node_postprocessors MetadataMode.llm)
  else
    Except.ok (QueryEngine.asQueryEngine index service_context true)

/-- A concrete stand-in for the filesystem used by evaluation witnesses. -/
def sampleRead : String → String := fun path => "TEMPLATE:" ++ path

/-- A chat message in `st.session_state.messages`: a dict with `role` and
`content` keys. -/
structure Message where
  role : String
  content : String
deriving DecidableEq

/-- A feedback record in `st.session_state.feedbacks`: a dict with
`message_id`, `is_good` and `feedback` keys. -/
structure Feedback where
  message_id : Nat
  is_good : Bool
  feedback : String
deriving DecidableEq

/-- The part of `st.session_state` the repository touches after
initialisation. -/
structure SessionState where
  messages : List Message
  feedbacks : List Feedback
deriving DecidableEq

/-- `show_feedback_component(message_id)` from `render.py`, as a transformer
of the session state.  The widget inputs of one script run are explicit:
`up_pressed` and `down_pressed` are the values `st.button` returns for the
thumbs-up and thumbs-down buttons keyed by this `message_id`, and `reason` is
the value of the `st.text_input` rendered under the thumbs-down button.  The
early `return` fires when a feedback record for `message_id` already exists. -/
def show_feedback_component (s : SessionState) (message_id : Nat)
    (up_pressed down_pressed : Bool) (reason : String) : SessionState :=
  if message_id ∈ s.feedbacks.map (fun feedback => feedback.message_id) then
    s
  else
    let s :=
      if up_pressed then
        { s with feedbacks := s.feedbacks ++ [⟨message_id, true, ""⟩] }
      else s
    if down_pressed then
      if reason ≠ "" then
        { s with feedbacks := s.feedbacks ++ [⟨message_id, false, reason⟩] }
      else s
    else s

/-- One rendering of the feedback component during one script run: the
`message_id` it is rendered for and the widget values it sees. -/
structure PressEvent where
  message_id : Nat
  up_pressed : Bool
  down_pressed : Bool
  reason : String
deriving DecidableEq

/-- A sequence of feedback-component renderings applied to the session state
in order. -/
def runPresses (s : SessionState) (events : List PressEvent) : SessionState :=
  events.foldl
    (fun s e => show_feedback_component s e.message_id e.up_pressed e.down_pressed e.reason)
    s

/-- `HyDEQueryTransform(include_original=True)` from
`llama_index.indices.query.query_transform`. -/
structure HyDEQueryTransform where
  include_original : Bool
deriving DecidableEq

/-- What `main` hands to `query_engine.query`: either the raw question string
from the chat input, or the query bundle produced by applying a
`HyDEQueryTransform` to that question. -/
inductive Query
  | raw (question : String)
  | bundle (transform : HyDEQueryTransform) (question : String)
deriving DecidableEq

/-- `hyde(prompt)`: applying the transform object to a question yields the
transformed query bundle for it. -/
def HyDEQueryTransform.apply (t : HyDEQueryTransform) (question : String) : Query :=
  Query.bundle t question

/-- A retrieved node; `ref.node.get_text()` reads its text. -/
structure Node where
  text : String
deriving DecidableEq

/-- `Node.get_text()`. -/
def Node.get_text (n : Node) : String := n.text

/-- An element of `response.source_nodes`. -/
structure NodeWithScore where
  node : Node
deriving DecidableEq

/-- The response object `query_engine.query` returns: the stream of answer
tokens (`response.response_gen`) and the retrieved sources
(`response.source_nodes`).  What they contain is external library plus LLM
behaviour, so `main` below takes the query function as a parameter. -/
structure Response where
  response_gen : List String
  source_nodes : List NodeWithScore
deriving DecidableEq

/-- The `cfg.synthesizer.render` block of the hydra configuration, with the
fields `main` unpacks from it. -/
structure RenderCfg where
  index_dir : String
  app_description : String
  citation_cfg : CitationCfg
  enable_hyde : Bool
  enable_node_expander : Bool
  openai_model_name : String
deriving DecidableEq

/-- The greeting message the chat history is initialised with when
`"messages"` is not yet in `st.session_state`. -/
def greeting (app_description : String) : Message :=
  ⟨"assistant", "Ask me a question about " ++ app_description ++ "!"⟩

/-- The raw session state at the start of a script run: `none` models a key
not yet present in `st.session_state`. -/
structure RawSessionState where
  messages : Option (List Message)
  feedbacks : Option (List Feedback)
deriving DecidableEq

/-- The chat-history initialisation of `main`: when `"messages"` is absent the
history becomes the single greeting message, otherwise it is kept. -/
def initMessages (app_description : String) (messages : Option (List Message)) :
    List Message :=
  match messages with
  | none => [greeting app_description]
  | some ms => ms

/-- The walrus block of `main`: when the chat input holds a question it is
appended to the history as a user message. -/
def appendPrompt (messages : List Message) (chat_input : Option String) :
    List Message :=
  match chat_input with
  | some p => messages ++ [⟨"user", p⟩]
  | none => messages

/-- The display loop of `main`: for each prior message, in order of its index,
the feedback component is rendered when (and only when) the message role is
`"assistant"`.  `buttons i` gives the widget values
`(up_pressed, down_pressed, reason)` the run sees for message `i`. -/
def displayLoop (buttons : Nat → Bool × Bool × String) (s : SessionState) :
    SessionState :=
  s.messages.enum.foldl
    (fun s im =>
      if im.2.role = "assistant" then
        show_feedback_component s im.1 (buttons im.1).1 (buttons im.1).2.1 (buttons im.1).2.2
      else s)
    s

/-- The `=== Non-RAG response === ... === RAG response ===` preamble `main`
shows when HyDE is enabled; `hypotheticalDoc question` models
`hyde(question).embedding_strs[0]`, the hypothetical document the transform's
LLM call generated. -/
def hydePreamble (hypotheticalDoc : String → String) (question : String) : String :=
  "=== Non-RAG response ===\n\n" ++ hypotheticalDoc question
    ++ "\n\n=== RAG response ===\n\n"

/-- The `### References` section appended when citations are enabled: every
source node in order, numbered from 1, its text in a fenced code block. -/
def referencesSection (source_nodes : List NodeWithScore) : String :=
  "\n\n### References\n\n" ++
    String.join (source_nodes.enum.map
      (fun iref =>
        "[" ++ toString (iref.1 + 1) ++ "]\n\n" ++ "```\n\n"
          ++ iref.2.node.get_text ++ "\n\n```\n\n"))

/-- The response-generation block of `main` for question `p`: build the query
(HyDE-transformed when enabled), run it, accumulate the streamed tokens after
the optional HyDE preamble, and append the references section when citations
are enabled.  Returns the stored `full_response` and the query submitted to
`query_engine.query`. -/
def generateResponse (hypotheticalDoc : String → String)
    (query : Query → Response) (enable_hyde enable_cite : Bool) (p : String) :
    String × Query :=
  let full_response :=
    if enable_hyde then hydePreamble hypotheticalDoc p else ""
  let prompt : Query :=
    if enable_hyde then (HyDEQueryTransform.mk true).apply p else Query.raw p
  let response := query prompt
  let full_response := full_response ++ String.join response.response_gen
  let full_response :=
    if enable_cite then full_response ++ referencesSection response.source_nodes
    else full_response
  (full_response, prompt)

/-- One script run of `main` from `render.py`, starting after the hydra
config has been unpacked.

Parameters model the external world of the run: `readFile` the filesystem,
`hypotheticalDoc` the HyDE LLM call, `query` the behaviour of
`query_engine.query` for the engine `init` built, `buttons` the feedback
widget values, `chat_input` the chat box (`none` when no question was
entered).  The result is `none` when the run raises: `init` raising
`UnboundLocalError`, `st.session_state.messages[-1]` on an empty history, or
`query_engine.query(None)` when generation triggers with no question bound. -/
def main (readFile : String → String) (hypotheticalDoc : String → String)
    (query : QueryEngine → Query → Response)
    (buttons : Nat → Bool × Bool × String) (cfg : RenderCfg)
    (state0 : RawSessionState) (chat_input : Option String) :
    Option (SessionState × Option Query) :=
  match init readFile cfg.index_dir cfg.openai_model_name cfg.citation_cfg
      cfg.enable_node_expander with
  | Except.error _ => none
  | Except.ok query_engine =>
    let messages := initMessages cfg.app_description state0.messages
    let feedbacks := match state0.feedbacks with
      | none => []
      | some fs => fs
    let messages := appendPrompt messages chat_input
    let s := displayLoop buttons ⟨messages, feedbacks⟩
    match s.messages.getLast? with
    | none => none
    | some last =>
      if last.role ≠ "assistant" then
        match chat_input with
        | none => none
        | some p =>
          let fr := generateResponse hypotheticalDoc (query query_engine)
            cfg.enable_hyde cfg.citation_cfg.enable_cite p
          let s := { s with messages := s.messages ++ [⟨"assistant", fr.1⟩] }
          let s := show_feedback_component s (s.messages.length - 1)
            (buttons (s.messages.length - 1)).1
            (buttons (s.messages.length - 1)).2.1
            (buttons (s.messages.length - 1)).2.2
          some (s, some fr.2)
      else
        some (s, none)

/-- Sample service context used by concrete witnesses. -/
def sampleServiceContext : ServiceContext := ServiceContext.from_defaults ⟨"m", 0⟩

/-- Sample index used by concrete witnesses. -/
def sampleIndex : Index := load_index "d" sampleServiceContext

/-- C6: `load_index` returns exactly the index obtained by loading the
pre-existing persisted store at `index_dir` — a `StorageContext` built with
`persist_dir = index_dir` passed to `load_index_from_storage` with the given
service context; the embedding is pure, mirroring that no index is built or
written here. -/
theorem load_index_loads_persisted_store (index_dir : String)
    (service_context : ServiceContext) :
    load_index index_dir service_context =
      load_index_from_storage (StorageContext.from_defaults index_dir)
        service_context := rfl

/-- C1: the claim that `init` completes for every combination of
`citation_cfg.enable_cite` and `enable_node_expander` fails on the code: at
`enable_cite = true`, `enable_node_expander = false` the local
`node_postprocessors` is never assigned (its assignment sits under
`if enable_node_expander:`), and evaluating the `node_postprocessors` argument
of `CitationQueryEngine.from_args` raises `UnboundLocalError`. -/
theorem init_unbound_local_failure :
    init sampleRead "index_dir" "gpt-4" ⟨true, 3, 512, ""⟩ false =
      Except.error (PyError.unboundLocal "node_postprocessors") := rfl

/-- C2 counterexample: at `enable_cite = true`, `enable_node_expander = false`
`init` does not return a `CitationQueryEngine` (or any engine): it fails with
`UnboundLocalError`, so the selection property as stated is false for this
configuration. -/
theorem init_selection_counterexample :
    init sampleRead "storage" "gpt-3.5-turbo" ⟨true, 2, 256, "tpl.txt"⟩ false =
      Except.error (PyError.unboundLocal "node_postprocessors") := rfl

/-- C2 (amended): whenever `init` completes without raising, the engine it
returns is selected by `enable_cite`: a `CitationQueryEngine` over the loaded
index with streaming enabled when the flag is true (which requires
`enable_node_expander` to be true for `init` to complete), and the index's
default query engine with the same service context and streaming enabled when
the flag is false. -/
theorem init_engine_selection (readFile : String → String)
    (index_dir openai_model_name : String) (citation_cfg : CitationCfg)
    (enable_node_expander : Bool) (qe : QueryEngine)
    (h : init readFile index_dir openai_model_name citation_cfg
      enable_node_expander = Except.ok qe) :
    (citation_cfg.enable_cite = true →
      ∃ tpl npp,
        qe = QueryEngine.citation
          (load_index index_dir (ServiceContext.from_defaults ⟨openai_model_name, 0⟩))
          citation_cfg.similarity_top_k tpl citation_cfg.citation_chunk_size
          true npp MetadataMode.llm) ∧
    (citation_cfg.enable_cite = false →
      qe = QueryEngine.asQueryEngine
        (load_index index_dir (ServiceContext.from_defaults ⟨openai_model_name, 0⟩))
        (ServiceContext.from_defaults ⟨openai_model_name, 0⟩) true) := by
  cases hc : citation_cfg.enable_cite with
  | false =>
    refine ⟨fun hct => Bool.noConfusion hct, fun _ => ?_⟩
    simp [init, hc] at h
    exact h.symm
  | true =>
    refine ⟨fun _ => ?_, fun hcf => Bool.noConfusion hcf⟩
    cases he : enable_node_expander with
    | false =>
      rw [he] at h
      simp [init, hc] at h
    | true =>
      rw [he] at h
      simp [init, hc] at h
      exact ⟨_, _, h.symm⟩

/-- C2 witness: the amended selection theorem applied at a concrete
configuration with citations disabled. -/
theorem init_engine_selection_witness :
    ((CitationCfg.mk false 1 1 "").enable_cite = true →
      ∃ tpl npp,
        QueryEngine.asQueryEngine sampleIndex sampleServiceContext true =
          QueryEngine.citation sampleIndex
            (CitationCfg.mk false 1 1 "").similarity_top_k tpl
            (CitationCfg.mk false 1 1 "").citation_chunk_size true npp
            MetadataMode.llm) ∧
    ((CitationCfg.mk false 1 1 "").enable_cite = false →
      QueryEngine.asQueryEngine sampleIndex sampleServiceContext true =
        QueryEngine.asQueryEngine sampleIndex sampleServiceContext true) :=
  init_engine_selection sampleRead "d" "m" ⟨false, 1, 1, ""⟩ true
    (QueryEngine.asQueryEngine sampleIndex sampleServiceContext true) rfl

/-- C7: whenever citations are enabled and `init` completes, the
`CitationQueryEngine` it builds takes its `citation_qa_template` from the file
at `citation_qa_template_path` exactly when that path is non-empty and the
library default `CITATION_QA_TEMPLATE` otherwise, and its `similarity_top_k`
and `citation_chunk_size` equal the corresponding `citation_cfg` fields. -/
theorem citation_engine_configuration (readFile : String → String)
    (index_dir openai_model_name : String) (citation_cfg : CitationCfg)
    (enable_node_expander : Bool) (qe : QueryEngine)
    (hcite : citation_cfg.enable_cite = true)
    (h : init readFile index_dir openai_model_name citation_cfg
      enable_node_expander = Except.ok qe) :
    ∃ npp,
      qe = QueryEngine.citation
        (load_index index_dir (ServiceContext.from_defaults ⟨openai_model_name, 0⟩))
        citation_cfg.similarity_top_k
        (if citation_cfg.citation_qa_template_path ≠ "" then
          PromptTemplate.mk (readFile citation_cfg.citation_qa_template_path)
        else CITATION_QA_TEMPLATE)
        citation_cfg.citation_chunk_size true npp MetadataMode.llm := by
  cases he : enable_node_expander with
  | false =>
    rw [he] at h
    simp [init, hcite] at h
  | true =>
    rw [he] at h
    simp [init, hcite] at h
    simp only [ne_eq, ite_not]
    exact ⟨_, h.symm⟩

/-- C7 witness: the configuration theorem applied at a concrete configuration
with a non-empty template path and the node expander enabled. -/
theorem citation_engine_configuration_witness :
    ∃ npp,
      QueryEngine.citation sampleIndex 5 ⟨"TEMPLATE:p.txt"⟩ 128 true
          (some [NodeExpander.build sampleIndex]) MetadataMode.llm =
        QueryEngine.citation sampleIndex
          (CitationCfg.mk true 5 128 "p.txt").similarity_top_k
          (if (CitationCfg.mk true 5 128 "p.txt").citation_qa_template_path ≠ "" then
            PromptTemplate.mk (sampleRead (CitationCfg.mk true 5 128 "p.txt").citation_qa_template_path)
          else CITATION_QA_TEMPLATE)
          (CitationCfg.mk true 5 128 "p.txt").citation_chunk_size true npp
          MetadataMode.llm :=
  citation_engine_configuration sampleRead "d" "m" ⟨true, 5, 128, "p.txt"⟩ true
    (QueryEngine.citation sampleIndex 5 ⟨"TEMPLATE:p.txt"⟩ 128 true
      (some [NodeExpander.build sampleIndex]) MetadataMode.llm) rfl rfl

/-- The list of message ids that already carry a feedback record; the list
comprehension of the early-return guard in `show_feedback_component`. -/
def feedbackIds (s : SessionState) : List Nat :=
  s.feedbacks.map (fun feedback => feedback.message_id)

/-- `show_feedback_component` never touches the chat history component of the
session state. -/
theorem show_feedback_component_messages (s : SessionState) (message_id : Nat)
    (up_pressed down_pressed : Bool) (reason : String) :
    (show_feedback_component s message_id up_pressed down_pressed reason).messages
      = s.messages := by
  unfold show_feedback_component
  by_cases hmem : message_id ∈ s.feedbacks.map (fun feedback => feedback.message_id)
  · rw [if_pos hmem]
  · rw [if_neg hmem]
    cases up_pressed <;> cases down_pressed <;>
      simp only [if_true, if_false, Bool.false_eq_true, ite_true, ite_false] <;>
      (try split) <;> rfl

/-- One rendering of the feedback component preserves the property that every
message id occurs at most once in the feedback list, provided the rendering is
a genuine single press (at most one of the two buttons reads true). -/
theorem show_feedback_component_nodup (s : SessionState) (message_id : Nat)
    (up_pressed down_pressed : Bool) (reason : String)
    (hone : up_pressed = false ∨ down_pressed = false)
    (h : (feedbackIds s).Nodup) :
    (feedbackIds
      (show_feedback_component s message_id up_pressed down_pressed reason)).Nodup := by
  unfold show_feedback_component
  by_cases hmem : message_id ∈ s.feedbacks.map (fun feedback => feedback.message_id)
  · rw [if_pos hmem]; exact h
  · rw [if_neg hmem]
    have happ : ∀ (b : Bool) (str : String),
        (feedbackIds ⟨s.messages, s.feedbacks ++ [⟨message_id, b, str⟩]⟩).Nodup := by
      intro b str
      simp only [feedbackIds, List.map_append, List.map_cons, List.map_nil]
      rw [List.nodup_append]
      refine ⟨h, List.nodup_singleton _, ?_⟩
      intro a ha hb
      rw [List.mem_singleton] at hb
      subst hb
      exact hmem ha
    cases up_pressed <;> cases down_pressed
    · exact h
    · show (feedbackIds (if reason ≠ "" then
          (⟨s.messages, s.feedbacks ++ [⟨message_id, false, reason⟩]⟩ : SessionState)
        else s)).Nodup
      by_cases hr : reason ≠ ""
      · rw [if_pos hr]; exact happ false reason
      · rw [if_neg hr]; exact h
    · exact happ true ""
    · rcases hone with h1 | h1 <;> exact Bool.noConfusion h1

/-- Folding any sequence of single-press renderings keeps message ids unique
in the feedback list. -/
theorem runPresses_nodup :
    ∀ (events : List PressEvent) (s : SessionState),
      (∀ e ∈ events, e.up_pressed = false ∨ e.down_pressed = false) →
      (feedbackIds s).Nodup → (feedbackIds (runPresses s events)).Nodup := by
  intro events
  induction events with
  | nil => intro s _ h; exact h
  | cons e es ih =>
    intro s hone h
    have hstep := show_feedback_component_nodup s e.message_id e.up_pressed
      e.down_pressed e.reason (hone e (List.mem_cons_self _ _)) h
    exact ih _ (fun x hx => hone x (List.mem_cons_of_mem _ hx)) hstep

/-- C5: on a message with no existing feedback record, a thumbs-up press
appends exactly the record `{message_id, is_good: true, feedback: ""}`, and a
thumbs-down press appends `{message_id, is_good: false, feedback: reason}`
exactly when the entered reason is non-empty — an empty reason records
nothing. -/
theorem feedback_button_semantics (s : SessionState) (message_id : Nat)
    (reason : String)
    (h : message_id ∉ s.feedbacks.map (fun feedback => feedback.message_id)) :
    (show_feedback_component s message_id true false reason).feedbacks
        = s.feedbacks ++ [⟨message_id, true, ""⟩] ∧
    (reason ≠ "" →
      (show_feedback_component s message_id false true reason).feedbacks
        = s.feedbacks ++ [⟨message_id, false, reason⟩]) ∧
    (show_feedback_component s message_id false true "").feedbacks
        = s.feedbacks := by
  refine ⟨?_, fun hr => ?_, ?_⟩ <;>
    simp [show_feedback_component, h, *]

/-- C5 witness: the button semantics evaluated on an empty feedback list. -/
theorem feedback_button_semantics_witness :
    (show_feedback_component ⟨[], []⟩ 0 true false "bad").feedbacks
        = (SessionState.mk [] []).feedbacks ++ [⟨0, true, ""⟩] ∧
    ("bad" ≠ "" →
      (show_feedback_component ⟨[], []⟩ 0 false true "bad").feedbacks
        = (SessionState.mk [] []).feedbacks ++ [⟨0, false, "bad"⟩]) ∧
    (show_feedback_component ⟨[], []⟩ 0 false true "").feedbacks
        = (SessionState.mk [] []).feedbacks :=
  feedback_button_semantics ⟨[], []⟩ 0 "bad" (by decide)

/-- C9: a message can never accumulate two feedback records: the component
returns unchanged when the message id already has a record, and across any
sequence of single-press renderings the feedback list keeps at most one record
per message id. -/
theorem feedback_at_most_one_per_message (events : List PressEvent)
    (s : SessionState)
    (hone : ∀ e ∈ events, e.up_pressed = false ∨ e.down_pressed = false)
    (hnd : (feedbackIds s).Nodup) :
    (feedbackIds (runPresses s events)).Nodup ∧
    (∀ message_id up_pressed down_pressed reason,
      message_id ∈ feedbackIds s →
      show_feedback_component s message_id up_pressed down_pressed reason = s) := by
  refine ⟨runPresses_nodup events s hone hnd, ?_⟩
  intro message_id up_pressed down_pressed reason hmem
  have hmem' : message_id ∈ s.feedbacks.map (fun feedback => feedback.message_id) := hmem
  unfold show_feedback_component
  rw [if_pos hmem']

/-- C9 witness: three single presses (thumbs-up on message 0, then thumbs-down
on message 0, then thumbs-down with a reason on message 1) starting from an
empty feedback list. -/
theorem feedback_at_most_one_per_message_witness :
    (feedbackIds (runPresses ⟨[], []⟩
        [⟨0, true, false, ""⟩, ⟨0, false, true, "x"⟩, ⟨1, false, true, "y"⟩])).Nodup ∧
    (∀ message_id up_pressed down_pressed reason,
      message_id ∈ feedbackIds ⟨[], []⟩ →
      show_feedback_component ⟨[], []⟩ message_id up_pressed down_pressed reason
        = ⟨[], []⟩) :=
  feedback_at_most_one_per_message
    [⟨0, true, false, ""⟩, ⟨0, false, true, "x"⟩, ⟨1, false, true, "y"⟩]
    ⟨[], []⟩ (by decide) (by decide)

/-- C10: `show_feedback_component` modifies only the feedback component of
the session state: the chat history is identical before and after the call,
whatever buttons are pressed. -/
theorem show_feedback_component_frame (s : SessionState) (message_id : Nat)
    (up_pressed down_pressed : Bool) (reason : String) :
    (show_feedback_component s message_id up_pressed down_pressed reason).messages
      = s.messages :=
  show_feedback_component_messages s message_id up_pressed down_pressed reason

/-- Appending one element makes it the last element. -/
theorem getLast?_append_singleton {α : Type} (l : List α) (a : α) :
    (l ++ [a]).getLast? = some a := by
  rw [List.getLast?_append_cons]; rfl

/-- The display loop only renders feedback components, so it never changes
the chat history. -/
theorem displayLoop_messages (buttons : Nat → Bool × Bool × String)
    (s : SessionState) : (displayLoop buttons s).messages = s.messages := by
  unfold displayLoop
  generalize s.messages.enum = l
  induction l generalizing s with
  | nil => rfl
  | cons im l ih =>
    rw [List.foldl_cons, ih]
    by_cases hrole : im.2.role = "assistant"
    · rw [if_pos hrole]
      exact show_feedback_component_messages s im.1 _ _ _
    · rw [if_neg hrole]

/-- The query the generation block submits: the HyDE transform of the
question exactly when HyDE is enabled, the raw question otherwise. -/
theorem generateResponse_query (hypotheticalDoc : String → String)
    (query : Query → Response) (enable_hyde enable_cite : Bool) (p : String) :
    (generateResponse hypotheticalDoc query enable_hyde enable_cite p).2 =
      if enable_hyde then (HyDEQueryTransform.mk true).apply p
      else Query.raw p := by
  cases enable_hyde <;> rfl

/-- The stored response text: optional HyDE preamble, then the streamed
tokens, then the references section exactly when citations are enabled. -/
theorem generateResponse_content (hypotheticalDoc : String → String)
    (query : Query → Response) (enable_hyde enable_cite : Bool) (p : String) :
    (generateResponse hypotheticalDoc query enable_hyde enable_cite p).1 =
      (if enable_hyde then hydePreamble hypotheticalDoc p else "")
        ++ String.join
          (query (generateResponse hypotheticalDoc query enable_hyde enable_cite p).2).response_gen
        ++ (if enable_cite then
            referencesSection
              (query (generateResponse hypotheticalDoc query enable_hyde enable_cite p).2).source_nodes
          else "") := by
  cases enable_hyde <;> cases enable_cite <;>
    simp [generateResponse, String.append_empty]

/-- C3: when a question is entered and the run completes, the query submitted
to `query_engine.query` is the `HyDEQueryTransform(include_original=True)`
transform of the question exactly when `enable_hyde` is true, and the raw
question string unchanged when it is false. -/
theorem hyde_query_selection (readFile hypotheticalDoc : String → String)
    (query : QueryEngine → Query → Response)
    (buttons : Nat → Bool × Bool × String) (cfg : RenderCfg)
    (state0 : RawSessionState) (p : String) (s : SessionState) (q : Query)
    (h : main readFile hypotheticalDoc query buttons cfg state0 (some p)
      = some (s, some q)) :
    (cfg.enable_hyde = true → q = (HyDEQueryTransform.mk true).apply p) ∧
    (cfg.enable_hyde = false → q = Query.raw p) := by
  unfold main at h
  split at h
  · exact Option.noConfusion h
  · dsimp only at h
    split at h
    · exact Option.noConfusion h
    · split at h
      · simp only [Option.some.injEq, Prod.mk.injEq] at h
        obtain ⟨-, hq⟩ := h
        rw [← hq, generateResponse_query]
        constructor
        · intro hh; rw [if_pos hh]
        · intro hh; rw [hh]; rfl
      · simp only [Option.some.injEq, Prod.mk.injEq] at h
        exact Option.noConfusion h.2

/-- C3 witness: a concrete run with HyDE enabled submits the transformed
question. -/
theorem hyde_query_selection_witness :
    ((RenderCfg.mk "d" "docs" ⟨true, 1, 1, ""⟩ true true "m").enable_hyde = true →
      Query.bundle ⟨true⟩ "Q" = (HyDEQueryTransform.mk true).apply "Q") ∧
    ((RenderCfg.mk "d" "docs" ⟨true, 1, 1, ""⟩ true true "m").enable_hyde = false →
      Query.bundle ⟨true⟩ "Q" = Query.raw "Q") :=
  hyde_query_selection sampleRead (fun _ => "H") (fun _ _ => ⟨["A"], [⟨⟨"N"⟩⟩]⟩)
    (fun _ => (false, false, "")) (RenderCfg.mk "d" "docs" ⟨true, 1, 1, ""⟩ true true "m")
    ⟨none, none⟩ "Q" _ _ rfl

/-- C8: the chat history state machine invariant: the history is initialised
with exactly one assistant greeting, a response is generated exactly when the
last message after the input phase is not an assistant message, and since any
generated response is appended with role `"assistant"`, every completed run
leaves an assistant message last. -/
theorem chat_history_invariant (readFile hypotheticalDoc : String → String)
    (query : QueryEngine → Query → Response)
    (buttons : Nat → Bool × Bool × String) (cfg : RenderCfg)
    (state0 : RawSessionState) (chat_input : Option String)
    (s : SessionState) (submitted : Option Query)
    (h : main readFile hypotheticalDoc query buttons cfg state0 chat_input
      = some (s, submitted)) :
    initMessages cfg.app_description none = [greeting cfg.app_description] ∧
    (greeting cfg.app_description).role = "assistant" ∧
    (submitted.isSome = true ↔
      (appendPrompt (initMessages cfg.app_description state0.messages)
          chat_input).getLast?.map Message.role ≠ some "assistant") ∧
    (∃ m, s.messages.getLast? = some m ∧ m.role = "assistant") := by
  refine ⟨rfl, rfl, ?_⟩
  unfold main at h
  split at h
  · exact Option.noConfusion h
  · rename_i qe hinit
    dsimp only at h
    split at h
    · exact Option.noConfusion h
    · rename_i last hlast
      have hlast2 : (appendPrompt (initMessages cfg.app_description state0.messages)
          chat_input).getLast? = some last := by
        simpa [displayLoop_messages] using hlast
      split at h
      · rename_i hrole
        split at h
        · exact Option.noConfusion h
        · rename_i p
          simp only [Option.some.injEq, Prod.mk.injEq] at h
          obtain ⟨hs, hsub⟩ := h
          refine ⟨⟨fun _ => ?_, fun _ => ?_⟩, ?_⟩
          · rw [hlast2]
            simp only [Option.map_some', ne_eq, Option.some.injEq]
            exact hrole
          · rw [← hsub]; rfl
          · refine ⟨⟨"assistant",
              (generateResponse hypotheticalDoc (query qe) cfg.enable_hyde
                cfg.citation_cfg.enable_cite p).1⟩, ?_, rfl⟩
            rw [← hs, show_feedback_component_messages]
            exact getLast?_append_singleton _ _
      · rename_i hrole
        have hrole' : last.role = "assistant" := not_not.mp hrole
        simp only [Option.some.injEq, Prod.mk.injEq] at h
        obtain ⟨hs, hsub⟩ := h
        refine ⟨⟨fun him => ?_, fun hne => ?_⟩, ?_⟩
        · rw [← hsub] at him
          exact Bool.noConfusion him
        · exact absurd (by rw [hlast2]; simp [hrole']) hne
        · exact ⟨last, by rw [← hs]; exact hlast, hrole'⟩

/-- C8 witness: a fresh session receiving the question `"Q"` ends with an
assistant message and a generated response. -/
theorem chat_history_invariant_witness :
    initMessages "docs" none = [greeting "docs"] ∧
    (greeting "docs").role = "assistant" ∧
    ((some (Query.raw "Q")).isSome = true ↔
      (appendPrompt (initMessages "docs" none) (some "Q")).getLast?.map
          Message.role ≠ some "assistant") ∧
    (∃ m, (SessionState.mk
        [⟨"assistant", "Ask me a question about docs!"⟩, ⟨"user", "Q"⟩,
          ⟨"assistant", "A"⟩] []).messages.getLast? = some m ∧
      m.role = "assistant") :=
  chat_history_invariant sampleRead (fun _ => "H")
    (fun _ _ => ⟨["A"], [⟨⟨"N"⟩⟩]⟩) (fun _ => (false, false, ""))
    (RenderCfg.mk "d" "docs" ⟨false, 1, 1, ""⟩ false true "m")
    ⟨none, none⟩ (some "Q") _ _ rfl

/-- C4 counterexample: with citations and HyDE both enabled, the stored
assistant message is not the concatenation of the streamed tokens and the
references section — the HyDE preamble precedes them. -/
theorem stored_response_counterexample :
    ((main sampleRead (fun _ => "H") (fun _ _ => ⟨["A"], [⟨⟨"N"⟩⟩]⟩)
        (fun _ => (false, false, ""))
        (RenderCfg.mk "d" "docs" ⟨true, 1, 1, ""⟩ true true "m")
        ⟨none, none⟩ (some "Q")).map
      (fun r => r.1.messages.getLast?.map Message.content))
      = some (some ("=== Non-RAG response ===\n\nH\n\n=== RAG response ===\n\nA"
          ++ referencesSection [⟨⟨"N"⟩⟩])) ∧
    "=== Non-RAG response ===\n\nH\n\n=== RAG response ===\n\nA"
        ++ referencesSection [⟨⟨"N"⟩⟩]
      ≠ "A" ++ referencesSection [⟨⟨"N"⟩⟩] := by
  constructor
  · rfl
  · decide

/-- C4 (amended): the stored assistant message is the optional HyDE preamble,
then the concatenation of the streamed response tokens, then — exactly when
`enable_cite` is true — a `### References` section listing every element of
`response.source_nodes` in order, numbered consecutively from 1, each node
text in a fenced code block (and nothing more when `enable_cite` is false). -/
theorem stored_response_structure (readFile hypotheticalDoc : String → String)
    (query : QueryEngine → Query → Response)
    (buttons : Nat → Bool × Bool × String) (cfg : RenderCfg)
    (state0 : RawSessionState) (p : String) (s : SessionState) (q : Query)
    (qe : QueryEngine)
    (hinit : init readFile cfg.index_dir cfg.openai_model_name cfg.citation_cfg
      cfg.enable_node_expander = Except.ok qe)
    (h : main readFile hypotheticalDoc query buttons cfg state0 (some p)
      = some (s, some q)) :
    s.messages.getLast?.map Message.content = some
      ((if cfg.enable_hyde then hydePreamble hypotheticalDoc p else "")
        ++ String.join (query qe q).response_gen
        ++ (if cfg.citation_cfg.enable_cite then
            referencesSection (query qe q).source_nodes
          else "")) := by
  unfold main at h
  split at h
  · exact Option.noConfusion h
  · rename_i qe' hinit2
    rw [hinit] at hinit2
    injection hinit2 with hqe
    subst hqe
    dsimp only at h
    split at h
    · exact Option.noConfusion h
    · split at h
      · simp only [Option.some.injEq, Prod.mk.injEq] at h
        obtain ⟨hs, hq⟩ := h
        subst hq
        rw [← hs, show_feedback_component_messages]
        simp only [getLast?_append_singleton, Option.map_some']
        exact congrArg some (generateResponse_content hypotheticalDoc (query qe)
          cfg.enable_hyde cfg.citation_cfg.enable_cite p)
      · simp only [Option.some.injEq, Prod.mk.injEq] at h
        exact Option.noConfusion h.2

/-- C4 witness: with citations enabled and HyDE disabled, the stored message
is the streamed tokens followed by the references section. -/
theorem stored_response_structure_witness :
    (SessionState.mk
        [⟨"assistant", "Ask me a question about docs!"⟩, ⟨"user", "Q"⟩,
          ⟨"assistant", "A" ++ referencesSection [⟨⟨"N"⟩⟩]⟩]
        []).messages.getLast?.map Message.content
      = some ("A" ++ referencesSection [⟨⟨"N"⟩⟩]) :=
  stored_response_structure sampleRead (fun _ => "H")
    (fun _ _ => ⟨["A"], [⟨⟨"N"⟩⟩]⟩) (fun _ => (false, false, ""))
    (RenderCfg.mk "d" "docs" ⟨true, 1, 1, ""⟩ false true "m")
    ⟨none, none⟩ "Q" _ _
    (QueryEngine.citation (load_index "d" (ServiceContext.from_defaults ⟨"m", 0⟩))
      1 CITATION_QA_TEMPLATE 1 true
      (some [NodeExpander.build (load_index "d" (ServiceContext.from_defaults ⟨"m", 0⟩))])
      MetadataMode.llm)
    rfl rfl

end Render
